import Mathlib

/-!
Shallow embedding of the streak state machine of the Daily.dev Streak Keeper
extension (src/src/js/background.js) and proofs of the specified properties.

Modelling conventions:
* Calendar days are abstracted as integers.  The source represents a day as
  the string produced by Date.toDateString() and only ever compares such
  strings for equality, so any type with decidable equality is faithful;
  yesterday relative to a day d is d - 1.
* Instants (Date.now()) are naturals (milliseconds).
* A value observed by the page-scraping collaborator is an Option JSNum:
  none models the JavaScript null result, JSNum.nan models NaN, and
  JSNum.int n models a finite integer number.
* Storage failure (chrome.runtime.lastError being set in a callback of
  chrome.storage.local.get or .set) is modelled by boolean success flags on
  the Run versions of each operation; a failed access leaves the persisted
  state unchanged, which matches the collaborator contract that an
  errored operation did not happen.
-/

/-- A JavaScript number as it can reach the streak guards: NaN, or a finite
integer (every value the extraction code produces comes from parseInt on a
digits-only regex match, hence is a finite integer when not NaN). -/
inductive JSNum where
  | nan : JSNum
  | int : Int → JSNum
deriving DecidableEq, Repr

/-- The persisted record kept in chrome.storage.local by background.js:
streak, lastVisit, streakMaintainedToday, syncedWithDailyDev, lastSyncTime.
lastVisit is none for the JavaScript null written at install time. -/
structure StreakState where
  streak : Int
  lastVisit : Option Int
  streakMaintainedToday : Bool
  syncedWithDailyDev : Bool
  lastSyncTime : Option Nat
deriving DecidableEq, Repr

/-- The outcome of running one event handler: the persisted state afterwards
and whether a chrome.notifications.create call was made. -/
structure OpResult where
  state : StreakState
  notified : Bool
deriving DecidableEq, Repr

/-- The record written by the chrome.runtime.onInstalled listener
(background.js lines 631-650). -/
def initialState : StreakState :=
  { streak := 0
    lastVisit := none
    streakMaintainedToday := false
    syncedWithDailyDev := false
    lastSyncTime := none }

/-- updateStreak (background.js lines 1077-1145), the internal increment
path, with explicit success flags for the initial storage.local.get and the
storage.local.set.  The source first checks lastError on the get; then, if
lastVisit is absent or differs from today, computes newStreak (streak + 1
when lastVisit equals yesterday, otherwise 1), writes streak, lastVisit,
streakMaintainedToday and syncedWithDailyDev (leaving lastSyncTime alone),
checks lastError on the set, and only then raises a notification.  When
lastVisit already equals today nothing is written and nothing is shown. -/
def updateStreakRun (today : Int) (readOk writeOk : Bool)
    (s : StreakState) : OpResult :=
  if readOk = false then ⟨s, false⟩
  else if s.lastVisit ≠ some today then
    let newStreak : Int :=
      if s.lastVisit = some (today - 1) then s.streak + 1 else 1
    if writeOk = false then ⟨s, false⟩
    else
      ⟨{ s with streak := newStreak
                lastVisit := some today
                streakMaintainedToday := true
                syncedWithDailyDev := false }, true⟩
  else ⟨s, false⟩

/-- The internal increment path on the happy path (both storage accesses
succeed): the state transformer of updateStreak. -/
def updateStreak (today : Int) (s : StreakState) : StreakState :=
  (updateStreakRun today true true s).state

/-- updateStreakWithCount (background.js lines 1025-1071), the external-sync
path, with explicit success flags.  The source reads lastVisit (only to
decide whether to show the first-visit notification), then unconditionally
writes streak := streakCount, lastVisit := today,
streakMaintainedToday := true, syncedWithDailyDev := true,
lastSyncTime := Date.now(); the notification is raised only when the set
succeeded and this was the first visit of the day. -/
def updateStreakWithCountRun (today : Int) (now : Nat) (streakCount : Int)
    (readOk writeOk : Bool) (s : StreakState) : OpResult :=
  if readOk = false then ⟨s, false⟩
  else if writeOk = false then ⟨s, false⟩
  else
    ⟨{ s with streak := streakCount
              lastVisit := some today
              streakMaintainedToday := true
              syncedWithDailyDev := true
              lastSyncTime := some now }, decide (s.lastVisit ≠ some today)⟩

/-- The external-sync path on the happy path: the state transformer of
updateStreakWithCount. -/
def updateStreakWithCount (today : Int) (now : Nat) (streakCount : Int)
    (s : StreakState) : StreakState :=
  (updateStreakWithCountRun today now streakCount true true s).state

/-- The dispatch in clickArticleAndUpdateStreak after a click succeeded
(background.js lines 104-123).  The guard on the observed value is
streakCount notEqual null AND not isNaN(streakCount): a null or NaN
observation falls back to updateStreak, any finite integer (zero and
negatives included) is handed to updateStreakWithCount. -/
def confirmAfterClick (today : Int) (now : Nat) (obs : Option JSNum)
    (s : StreakState) : StreakState :=
  match obs with
  | some (JSNum.int n) => updateStreakWithCount today now n s
  | some JSNum.nan => updateStreak today s
  | none => updateStreak today s

/-- The dispatch in clickArticleAndUpdateStreak after the article page
loaded (background.js lines 161-176).  Here the guard is the truthiness
check results[0].result AND not isNaN(results[0].result): null, NaN and the
falsy number 0 all fall back to updateStreak, any other finite integer
(negatives included) is handed to updateStreakWithCount. -/
def confirmAfterArticleLoad (today : Int) (now : Nat) (obs : Option JSNum)
    (s : StreakState) : StreakState :=
  match obs with
  | some (JSNum.int n) =>
      if n = 0 then updateStreak today s
      else updateStreakWithCount today now n s
  | some JSNum.nan => updateStreak today s
  | none => updateStreak today s

/-- forceSyncStreakFromDailyDev (background.js lines 885-1019) with success
flags.  The source reads lastVisit up front (alreadyMaintained), opens a
tab, extracts a count, and applies the truthiness guard results[0].result
AND not isNaN: on a truthy finite number it writes streak, syncedWithDailyDev
and lastSyncTime, then (set callback, after the lastError check) writes
lastVisit := today and streakMaintainedToday := true when alreadyMaintained
held, and raises a sync notification; otherwise nothing is written. -/
def forceSyncRun (today : Int) (now : Nat) (obs : Option JSNum)
    (readOk writeOk : Bool) (s : StreakState) : OpResult :=
  if readOk = false then ⟨s, false⟩
  else
    match obs with
    | some (JSNum.int n) =>
        if n = 0 then ⟨s, false⟩
        else if writeOk = false then ⟨s, false⟩
        else
          let s1 : StreakState :=
            { s with streak := n
                     syncedWithDailyDev := true
                     lastSyncTime := some now }
          if s.lastVisit = some today then
            ⟨{ s1 with lastVisit := some today
                       streakMaintainedToday := true }, true⟩
          else ⟨s1, true⟩
    | some JSNum.nan => ⟨s, false⟩
    | none => ⟨s, false⟩

/-- The state transformer of forceSyncStreakFromDailyDev on the happy
path. -/
def forceSyncFromDailyDev (today : Int) (now : Nat) (obs : Option JSNum)
    (s : StreakState) : StreakState :=
  (forceSyncRun today now obs true true s).state

/-- The forceSyncStreak branch of the chrome.runtime.onMessage listener
(background.js lines 491-624) with a success flag for the storage write.
It applies the same truthiness guard as the alarm force-sync; on a truthy
finite number it writes streak, syncedWithDailyDev and lastSyncTime and
responds success, otherwise it responds failure without writing.  It never
touches lastVisit or streakMaintainedToday.  The boolean returned is the
success field of the response sent to the popup. -/
def manualSyncRun (now : Nat) (obs : Option JSNum) (writeOk : Bool)
    (s : StreakState) : StreakState × Bool :=
  match obs with
  | some (JSNum.int n) =>
      if n = 0 then (s, false)
      else if writeOk = false then (s, false)
      else
        ({ s with streak := n
                  syncedWithDailyDev := true
                  lastSyncTime := some now }, true)
  | some JSNum.nan => (s, false)
  | none => (s, false)

/-- The manual sync on the happy path. -/
def manualSync (now : Nat) (obs : Option JSNum) (s : StreakState) :
    StreakState × Bool :=
  manualSyncRun now obs true s

/-- The chrome.alarms.onAlarm listener for firstStreakReminder and
secondStreakReminder (background.js lines 1198-1245) followed by
checkStreakAndNotify (lines 1251-1318), with success flags for the two
storage reads.  The listener reads lastVisit and only calls
checkStreakAndNotify when lastVisit differs from today;
checkStreakAndNotify re-reads the state and raises the reminder
notification under the same condition.  isUrgent only selects the
notification title, message and priority; no storage write occurs on any
branch. -/
def handleReminderAlarm (isUrgent : Bool) (today : Int)
    (readOk readOk2 : Bool) (s : StreakState) : OpResult :=
  if readOk = false then ⟨s, false⟩
  else if s.lastVisit ≠ some today then
    if readOk2 = false then ⟨s, false⟩
    else if s.lastVisit ≠ some today then ⟨s, true⟩
    else ⟨s, false⟩
  else ⟨s, false⟩

/-- Milliseconds per hour. -/
def msPerHour : Nat := 3600000

/-- Milliseconds per minute. -/
def msPerMinute : Nat := 60000

/-- Milliseconds per day. -/
def msPerDay : Nat := 86400000

/-- Today's occurrence of the wall-clock time (hour, minute): the source
builds it as new Date() followed by setHours(hour, minute, 0, 0); with
instants as milliseconds since the local epoch this is the start of the
current day plus the offset of (hour, minute). -/
def reminderToday (hour minute now : Nat) : Nat :=
  now - now % msPerDay + hour * msPerHour + minute * msPerMinute

/-- getNextReminderTime (background.js lines 1153-1170): today's occurrence
of (hour, minute), pushed to tomorrow when now is strictly past it (the
source condition is now greater than reminder). -/
def getNextReminderTime (hour minute now : Nat) : Nat :=
  if reminderToday hour minute now < now then
    reminderToday hour minute now + msPerDay
  else reminderToday hour minute now

/-- The storage invariant claimed by the spec: lastSyncTime is non-null
only when syncedWithDailyDev is set. -/
def syncInv (s : StreakState) : Prop :=
  s.lastSyncTime = none ∨ s.syncedWithDailyDev = true

instance (s : StreakState) : Decidable (syncInv s) := by
  unfold syncInv; infer_instance

/-- C1 counterexample: with lastVisit already equal to today, the
external-sync path updateStreakWithCount is not a no-op — starting from
streak 5 and an observed value 42 it changes the stored streak. -/
theorem C1_counterexample :
    (⟨5, some 0, true, false, none⟩ : StreakState).lastVisit = some 0 ∧
    (updateStreakWithCount 0 7 42 ⟨5, some 0, true, false, none⟩).streak ≠
      (⟨5, some 0, true, false, none⟩ : StreakState).streak := by
  decide

/-- C1 (amended): for every state whose lastVisit equals today, the internal
increment path updateStreak is a no-op, while the external-sync path
updateStreakWithCount leaves lastVisit unchanged but still overwrites
streak with the observed value and sets syncedWithDailyDev. -/
theorem C1_amended (today : Int) (now : Nat) (v : Int) (s : StreakState)
    (h : s.lastVisit = some today) :
    updateStreak today s = s ∧
    (updateStreakWithCount today now v s).lastVisit = s.lastVisit ∧
    (updateStreakWithCount today now v s).streak = v ∧
    (updateStreakWithCount today now v s).syncedWithDailyDev = true := by
  refine ⟨?_, ?_, ?_, ?_⟩ <;>
    simp [updateStreak, updateStreakRun, updateStreakWithCount,
      updateStreakWithCountRun, h]

/-- C1 witness: the amended statement at a concrete state maintained
today. -/
theorem C1_witness :
    (⟨5, some 0, true, false, none⟩ : StreakState).lastVisit = some (0 : Int) ∧
    (updateStreak 0 ⟨5, some 0, true, false, none⟩ =
        ⟨5, some 0, true, false, none⟩ ∧
      (updateStreakWithCount 0 7 42 ⟨5, some 0, true, false, none⟩).lastVisit =
        (⟨5, some 0, true, false, none⟩ : StreakState).lastVisit ∧
      (updateStreakWithCount 0 7 42 ⟨5, some 0, true, false, none⟩).streak = 42 ∧
      (updateStreakWithCount 0 7 42
          ⟨5, some 0, true, false, none⟩).syncedWithDailyDev = true) :=
  ⟨by decide, C1_amended 0 7 42 ⟨5, some 0, true, false, none⟩ (by decide)⟩

/-- C2: for every valid (non-negative) observed value v and every prior
state, after updateStreakWithCount the stored streak equals v, the state is
marked synced with lastSyncTime set to the current instant, lastVisit is
today and streakMaintainedToday holds. -/
theorem C2_external_sync_overwrites (today : Int) (now : Nat) (v : Int)
    (hv : 0 ≤ v) (s : StreakState) :
    (updateStreakWithCount today now v s).streak = v ∧
    (updateStreakWithCount today now v s).syncedWithDailyDev = true ∧
    (updateStreakWithCount today now v s).lastSyncTime = some now ∧
    (updateStreakWithCount today now v s).lastVisit = some today ∧
    (updateStreakWithCount today now v s).streakMaintainedToday = true := by
  refine ⟨?_, ?_, ?_, ?_, ?_⟩ <;>
    simp [updateStreakWithCount, updateStreakWithCountRun]

/-- C2 witness: scenario D of the spec, observed value 42 against a stored
streak of 6. -/
theorem C2_witness :
    (0 : Int) ≤ 42 ∧
    ((updateStreakWithCount 0 7 42 ⟨6, some (-1), false, false, none⟩).streak = 42 ∧
      (updateStreakWithCount 0 7 42
          ⟨6, some (-1), false, false, none⟩).syncedWithDailyDev = true ∧
      (updateStreakWithCount 0 7 42
          ⟨6, some (-1), false, false, none⟩).lastSyncTime = some 7 ∧
      (updateStreakWithCount 0 7 42
          ⟨6, some (-1), false, false, none⟩).lastVisit = some 0 ∧
      (updateStreakWithCount 0 7 42
          ⟨6, some (-1), false, false, none⟩).streakMaintainedToday = true) :=
  ⟨by decide,
    C2_external_sync_overwrites 0 7 42 (by decide) ⟨6, some (-1), false, false, none⟩⟩

/-- C3: for every state whose lastVisit is not today, the internal
increment path sets lastVisit to today, streakMaintainedToday to true and
syncedWithDailyDev to false, and the streak becomes streak + 1 when
lastVisit was exactly yesterday, and 1 when lastVisit was null or any day
older than yesterday. -/
theorem C3_internal_path (today : Int) (s : StreakState)
    (h : s.lastVisit ≠ some today) :
    (updateStreak today s).lastVisit = some today ∧
    (updateStreak today s).streakMaintainedToday = true ∧
    (updateStreak today s).syncedWithDailyDev = false ∧
    (s.lastVisit = some (today - 1) →
      (updateStreak today s).streak = s.streak + 1) ∧
    (s.lastVisit = none → (updateStreak today s).streak = 1) ∧
    (∀ d : Int, s.lastVisit = some d → d < today - 1 →
      (updateStreak today s).streak = 1) := by
  refine ⟨?_, ?_, ?_, ?_, ?_, ?_⟩
  · simp [updateStreak, updateStreakRun, h]
  · simp [updateStreak, updateStreakRun, h]
  · simp [updateStreak, updateStreakRun, h]
  · intro hy
    simp [updateStreak, updateStreakRun, h, hy]
  · intro hn
    simp [updateStreak, updateStreakRun, h, hn]
  · intro d hd hlt
    have hy : s.lastVisit ≠ some (today - 1) := by
      rw [hd]
      simp only [ne_eq, Option.some.injEq]
      omega
    simp [updateStreak, updateStreakRun, h, hy]

/-- C3 witness: scenario B of the spec, lastVisit equal to yesterday and
streak 5 giving streak 6. -/
theorem C3_witness :
    (⟨5, some (-1), false, false, none⟩ : StreakState).lastVisit ≠
      some (0 : Int) ∧
    ((updateStreak 0 ⟨5, some (-1), false, false, none⟩).lastVisit = some 0 ∧
      (updateStreak 0
          ⟨5, some (-1), false, false, none⟩).streakMaintainedToday = true ∧
      (updateStreak 0
          ⟨5, some (-1), false, false, none⟩).syncedWithDailyDev = false ∧
      ((⟨5, some (-1), false, false, none⟩ : StreakState).lastVisit =
          some (0 - 1) →
        (updateStreak 0 ⟨5, some (-1), false, false, none⟩).streak =
          (⟨5, some (-1), false, false, none⟩ : StreakState).streak + 1) ∧
      ((⟨5, some (-1), false, false, none⟩ : StreakState).lastVisit = none →
        (updateStreak 0 ⟨5, some (-1), false, false, none⟩).streak = 1) ∧
      (∀ d : Int,
        (⟨5, some (-1), false, false, none⟩ : StreakState).lastVisit = some d →
        d < 0 - 1 →
        (updateStreak 0 ⟨5, some (-1), false, false, none⟩).streak = 1)) :=
  ⟨by decide, C3_internal_path 0 ⟨5, some (-1), false, false, none⟩ (by decide)⟩

/-- C4 counterexample: in the terminal maintained state (lastVisit = today,
streak 10), a force-sync firing with observed value 3 lowers the stored
streak before the day rolls over, so the claimed monotonicity of
streakCount fails. -/
theorem C4_counterexample :
    (⟨10, some 0, true, true, some 0⟩ : StreakState).lastVisit = some 0 ∧
    (forceSyncFromDailyDev 0 1 (some (JSNum.int 3))
        ⟨10, some 0, true, true, some 0⟩).streak <
      (⟨10, some 0, true, true, some 0⟩ : StreakState).streak := by
  decide

/-- C4 (amended): once lastVisit equals today and streakMaintainedToday
holds, every operation keeps lastVisit at today and keeps
streakMaintainedToday true (the internal path is a full no-op and the
reminder path never writes), but the external-sync overwrite may still
change — in particular lower — streakCount, as the counterexample shows. -/
theorem C4_amended (today : Int) (now : Nat) (v : Int) (obs : Option JSNum)
    (isUrgent r1 r2 : Bool) (s : StreakState)
    (h : s.lastVisit = some today) (hm : s.streakMaintainedToday = true) :
    updateStreak today s = s ∧
    (updateStreakWithCount today now v s).lastVisit = some today ∧
    (updateStreakWithCount today now v s).streakMaintainedToday = true ∧
    (forceSyncFromDailyDev today now obs s).lastVisit = some today ∧
    (forceSyncFromDailyDev today now obs s).streakMaintainedToday = true ∧
    (manualSync now obs s).1.lastVisit = some today ∧
    (manualSync now obs s).1.streakMaintainedToday = true ∧
    (handleReminderAlarm isUrgent today r1 r2 s).state = s := by
  have hforce : (forceSyncFromDailyDev today now obs s).lastVisit = some today ∧
      (forceSyncFromDailyDev today now obs s).streakMaintainedToday = true := by
    cases obs with
    | none => simpa [forceSyncFromDailyDev, forceSyncRun] using ⟨h, hm⟩
    | some w =>
      cases w with
      | nan => simpa [forceSyncFromDailyDev, forceSyncRun] using ⟨h, hm⟩
      | int n =>
        by_cases hn : n = 0
        · simpa [forceSyncFromDailyDev, forceSyncRun, hn] using ⟨h, hm⟩
        · simp [forceSyncFromDailyDev, forceSyncRun, hn, h]
  have hmanual : (manualSync now obs s).1.lastVisit = some today ∧
      (manualSync now obs s).1.streakMaintainedToday = true := by
    cases obs with
    | none => simpa [manualSync, manualSyncRun] using ⟨h, hm⟩
    | some w =>
      cases w with
      | nan => simpa [manualSync, manualSyncRun] using ⟨h, hm⟩
      | int n =>
        by_cases hn : n = 0
        · simpa [manualSync, manualSyncRun, hn] using ⟨h, hm⟩
        · simpa [manualSync, manualSyncRun, hn] using ⟨h, hm⟩
  have hrem : (handleReminderAlarm isUrgent today r1 r2 s).state = s := by
    cases r1 <;> simp [handleReminderAlarm, h]
  refine ⟨?_, ?_, ?_, hforce.1, hforce.2, hmanual.1, hmanual.2, hrem⟩
  · simp [updateStreak, updateStreakRun, h]
  · simp [updateStreakWithCount, updateStreakWithCountRun]
  · simp [updateStreakWithCount, updateStreakWithCountRun]

/-- C4 witness: the amended statement at a concrete maintained state. -/
theorem C4_witness :
    (⟨10, some 0, true, true, some 0⟩ : StreakState).lastVisit = some (0 : Int) ∧
    (⟨10, some 0, true, true, some 0⟩ : StreakState).streakMaintainedToday = true ∧
    (updateStreak 0 ⟨10, some 0, true, true, some 0⟩ =
        ⟨10, some 0, true, true, some 0⟩ ∧
      (updateStreakWithCount 0 1 3 ⟨10, some 0, true, true, some 0⟩).lastVisit =
        some 0 ∧
      (updateStreakWithCount 0 1 3
          ⟨10, some 0, true, true, some 0⟩).streakMaintainedToday = true ∧
      (forceSyncFromDailyDev 0 1 (some (JSNum.int 3))
          ⟨10, some 0, true, true, some 0⟩).lastVisit = some 0 ∧
      (forceSyncFromDailyDev 0 1 (some (JSNum.int 3))
          ⟨10, some 0, true, true, some 0⟩).streakMaintainedToday = true ∧
      (manualSync 1 (some (JSNum.int 3))
          ⟨10, some 0, true, true, some 0⟩).1.lastVisit = some 0 ∧
      (manualSync 1 (some (JSNum.int 3))
          ⟨10, some 0, true, true, some 0⟩).1.streakMaintainedToday = true ∧
      (handleReminderAlarm false 0 true true
          ⟨10, some 0, true, true, some 0⟩).state =
        ⟨10, some 0, true, true, some 0⟩) :=
  ⟨by decide, by decide,
    C4_amended 0 1 3 (some (JSNum.int 3)) false true true
      ⟨10, some 0, true, true, some 0⟩ (by decide) (by decide)⟩

/-- C5 counterexample: a negative observed value passes the guard of the
page-load confirmation path (it is neither null nor NaN) and is written
verbatim to the stored streak, so the claim that a negative observed value
is never written fails. -/
theorem C5_counterexample :
    (confirmAfterClick 1 0 (some (JSNum.int (-5))) initialState).streak = -5 ∧
    (confirmAfterClick 1 0 (some (JSNum.int (-5))) initialState).streak < 0 := by
  decide

/-- C5 (amended): a null or NaN observation is discarded and falls back to
the internal increment path on both guards, and the article-load guard also
discards the falsy value 0; but neither guard rejects negative finite
values — they are written verbatim to streakCount. -/
theorem C5_amended (today : Int) (now : Nat) (n : Int) (s : StreakState) :
    confirmAfterClick today now none s = updateStreak today s ∧
    confirmAfterClick today now (some JSNum.nan) s = updateStreak today s ∧
    (confirmAfterClick today now (some (JSNum.int n)) s).streak = n ∧
    confirmAfterArticleLoad today now none s = updateStreak today s ∧
    confirmAfterArticleLoad today now (some JSNum.nan) s =
      updateStreak today s ∧
    confirmAfterArticleLoad today now (some (JSNum.int 0)) s =
      updateStreak today s ∧
    (n ≠ 0 →
      (confirmAfterArticleLoad today now (some (JSNum.int n)) s).streak = n) := by
  refine ⟨rfl, rfl, ?_, rfl, rfl, ?_, ?_⟩
  · simp [confirmAfterClick, updateStreakWithCount, updateStreakWithCountRun]
  · simp [confirmAfterArticleLoad]
  · intro hn
    simp [confirmAfterArticleLoad, hn, updateStreakWithCount,
      updateStreakWithCountRun]

/-- C5 witness: the amended statement applied at the negative observed
value -5, with the nonzero hypothesis discharged. -/
theorem C5_witness :
    (-5 : Int) ≠ 0 ∧
    (confirmAfterArticleLoad 1 0 (some (JSNum.int (-5))) initialState).streak =
      -5 :=
  ⟨by decide, (C5_amended 1 0 (-5) initialState).2.2.2.2.2.2 (by decide)⟩

/-- C6 counterexample: a state that satisfies the invariant (synced, with a
sync timestamp) loses it when the internal increment path fires on a new
day, because updateStreak sets syncedWithDailyDev to false without clearing
lastSyncTime. -/
theorem C6_counterexample :
    syncInv ⟨3, some 0, true, true, some 5⟩ ∧
    ¬ syncInv (updateStreak 1 ⟨3, some 0, true, true, some 5⟩) := by
  decide

/-- C6 (amended): the invariant (lastSyncTime non-null only when synced)
holds in the installed state and is preserved by the external-sync path,
but the internal increment path preserves it only when lastSyncTime is
still null, since it writes syncedWithDailyDev := false while leaving
lastSyncTime untouched. -/
theorem C6_amended :
    syncInv initialState ∧
    (∀ (today : Int) (now : Nat) (v : Int) (s : StreakState),
      syncInv (updateStreakWithCount today now v s)) ∧
    (∀ (today : Int) (s : StreakState), s.lastSyncTime = none →
      syncInv (updateStreak today s)) := by
  refine ⟨by decide, ?_, ?_⟩
  · intro today now v s
    simp [syncInv, updateStreakWithCount, updateStreakWithCountRun]
  · intro today s hnone
    by_cases h : s.lastVisit = some today
    · simp [syncInv, updateStreak, updateStreakRun, h, hnone]
    · simp [syncInv, updateStreak, updateStreakRun, h, hnone]

/-- C6 witness: the internal-path conjunct applied at the installed state,
whose lastSyncTime is null. -/
theorem C6_witness :
    initialState.lastSyncTime = none ∧
    syncInv (updateStreak 1 initialState) :=
  ⟨rfl, C6_amended.2.2 1 initialState rfl⟩

/-- C7 counterexample: when now is exactly today's occurrence of the
configured wall-clock time (here 05:00, i.e. 18000000 milliseconds into the
day), getNextReminderTime returns now itself, so the returned instant is
not strictly greater than now. -/
theorem C7_counterexample :
    getNextReminderTime 5 0 18000000 = 18000000 ∧
    ¬ 18000000 < getNextReminderTime 5 0 18000000 := by
  decide

/-- C7 (amended): getNextReminderTime returns today's occurrence of
(hour, minute) whenever now is at or before that instant, and tomorrow's
occurrence when now is strictly past it; the result is at least now, the
gap is below 24 hours, and the result is strictly greater than now except
exactly at the boundary instant itself.  Stability under repeated calls
holds because the result is a function of (hour, minute, now) alone. -/
theorem C7_amended (hour minute now : Nat) (hh : hour < 24)
    (hm : minute < 60) :
    (now ≤ reminderToday hour minute now →
      getNextReminderTime hour minute now = reminderToday hour minute now) ∧
    (reminderToday hour minute now < now →
      getNextReminderTime hour minute now =
        reminderToday hour minute now + msPerDay) ∧
    now ≤ getNextReminderTime hour minute now ∧
    getNextReminderTime hour minute now - now < msPerDay ∧
    (now ≠ reminderToday hour minute now →
      now < getNextReminderTime hour minute now) := by
  have h1 : now % 86400000 ≤ now := Nat.mod_le _ _
  have h2 : now % 86400000 < 86400000 := Nat.mod_lt _ (by norm_num)
  unfold getNextReminderTime reminderToday msPerDay msPerHour msPerMinute
  by_cases hc : now - now % 86400000 + hour * 3600000 + minute * 60000 < now
  · rw [if_pos hc]
    refine ⟨fun hle => ?_, fun _ => rfl, ?_, ?_, fun _ => ?_⟩ <;> omega
  · rw [if_neg hc]
    refine ⟨fun _ => rfl, fun hlt => ?_, ?_, ?_, fun hne => ?_⟩ <;> omega

/-- C7 witness: the amended statement at hour 5, minute 0 and now at the
start of a day. -/
theorem C7_witness :
    5 < 24 ∧ 0 < 60 ∧
    ((0 ≤ reminderToday 5 0 0 →
        getNextReminderTime 5 0 0 = reminderToday 5 0 0) ∧
      (reminderToday 5 0 0 < 0 →
        getNextReminderTime 5 0 0 = reminderToday 5 0 0 + msPerDay) ∧
      0 ≤ getNextReminderTime 5 0 0 ∧
      getNextReminderTime 5 0 0 - 0 < msPerDay ∧
      (0 ≠ reminderToday 5 0 0 → 0 < getNextReminderTime 5 0 0)) :=
  ⟨by decide, by decide, C7_amended 5 0 0 (by decide) (by decide)⟩

/-- C8: a reminder alarm leaves the stored state exactly as it was on every
branch, and the reminder notification is raised precisely when both storage
reads succeed and lastVisit differs from today; in particular, when the
streak is already maintained today no notification call occurs. -/
theorem C8_reminder_read_only (isUrgent : Bool) (today : Int)
    (r1 r2 : Bool) (s : StreakState) :
    (handleReminderAlarm isUrgent today r1 r2 s).state = s ∧
    ((handleReminderAlarm isUrgent today r1 r2 s).notified = true ↔
      r1 = true ∧ r2 = true ∧ s.lastVisit ≠ some today) := by
  by_cases h : s.lastVisit = some today <;>
    cases r1 <;> cases r2 <;> simp [handleReminderAlarm, h]

/-- C9: when the storage read that begins an operation fails (the error
signal is set), the operation aborts: the stored state is unchanged and no
notification or response follows; the same holds when the storage write
fails.  Each operation is a pure function of its inputs, so the aborted
call performs no retry. -/
theorem C9_storage_failure_aborts (today : Int) (now : Nat) (v : Int)
    (obs : Option JSNum) (isUrgent w r2 : Bool) (s : StreakState) :
    (updateStreakRun today false w s).state = s ∧
    (updateStreakRun today false w s).notified = false ∧
    (updateStreakWithCountRun today now v false w s).state = s ∧
    (updateStreakWithCountRun today now v false w s).notified = false ∧
    (forceSyncRun today now obs false w s).state = s ∧
    (forceSyncRun today now obs false w s).notified = false ∧
    (handleReminderAlarm isUrgent today false r2 s).state = s ∧
    (handleReminderAlarm isUrgent today false r2 s).notified = false ∧
    (updateStreakRun today true false s).state = s ∧
    (updateStreakRun today true false s).notified = false ∧
    (updateStreakWithCountRun today now v true false s).state = s ∧
    (updateStreakWithCountRun today now v true false s).notified = false ∧
    (forceSyncRun today now obs true false s).state = s ∧
    (forceSyncRun today now obs true false s).notified = false ∧
    manualSyncRun now obs false s = (s, false) := by
  have hws : (updateStreakRun today true false s).state = s ∧
      (updateStreakRun today true false s).notified = false := by
    by_cases h : s.lastVisit = some today <;>
      simp [updateStreakRun, h]
  have hfs : (forceSyncRun today now obs true false s).state = s ∧
      (forceSyncRun today now obs true false s).notified = false := by
    cases obs with
    | none => simp [forceSyncRun]
    | some u =>
      cases u with
      | nan => simp [forceSyncRun]
      | int n =>
        by_cases hn : n = 0 <;> simp [forceSyncRun, hn]
  have hms : manualSyncRun now obs false s = (s, false) := by
    cases obs with
    | none => rfl
    | some u =>
      cases u with
      | nan => rfl
      | int n =>
        by_cases hn : n = 0 <;> simp [manualSyncRun, hn]
  exact ⟨by simp [updateStreakRun], by simp [updateStreakRun],
    by simp [updateStreakWithCountRun], by simp [updateStreakWithCountRun],
    by simp [forceSyncRun], by simp [forceSyncRun],
    by simp [handleReminderAlarm], by simp [handleReminderAlarm],
    hws.1, hws.2,
    by simp [updateStreakWithCountRun], by simp [updateStreakWithCountRun],
    hfs.1, hfs.2, hms⟩

/-- C10: both forced-sync paths treat an extracted count of 0 as a failed
extraction because of the truthiness check — the stored state is unchanged
and the manual sync responds with failure — while the page-load
confirmation path accepts an observed 0 and stores it via the external-sync
path. -/
theorem C10_zero_rejected_by_forced_sync (today : Int) (now : Nat)
    (s : StreakState) :
    manualSync now (some (JSNum.int 0)) s = (s, false) ∧
    forceSyncFromDailyDev today now (some (JSNum.int 0)) s = s ∧
    (confirmAfterClick today now (some (JSNum.int 0)) s).streak = 0 ∧
    (confirmAfterClick today now (some (JSNum.int 0)) s).syncedWithDailyDev =
      true ∧
    (confirmAfterClick today now (some (JSNum.int 0)) s).lastVisit =
      some today := by
  refine ⟨?_, ?_, ?_, ?_, ?_⟩
  · simp [manualSync, manualSyncRun]
  · simp [forceSyncFromDailyDev, forceSyncRun]
  · simp [confirmAfterClick, updateStreakWithCount, updateStreakWithCountRun]
  · simp [confirmAfterClick, updateStreakWithCount, updateStreakWithCountRun]
  · simp [confirmAfterClick, updateStreakWithCount, updateStreakWithCountRun]
